/-
Verification of the Sage Accounting MCP server (src/src/index.ts) against its
natural-language specification.

Shallow embedding notes:
* JSON numbers are modelled as exact rationals (`Rat`).  The server never
  performs arithmetic on numbers — it only copies them between the argument
  bag, the request body and the response — so the choice of representation is
  observationally irrelevant; `Rat` keeps decimal literals such as 9.99 exact.
* JavaScript runtime values that may be `undefined` are modelled by `JsValue`,
  which has an explicit `undef` constructor.  `JSON.stringify` drops
  object fields whose value is `undefined` and turns `undefined` array
  elements into `null`; `JsValue.toJson?` models exactly that projection.
* The mutable module variable `currentAccessToken` (a string, or `undefined`
  after a refresh whose response lacked a string `access_token` field) is
  modelled as `Option String`, `none` standing for `undefined`.
* Network effects are modelled by an oracle giving the response to the n-th
  request sent to the resource endpoint and to the token endpoint; the
  requests actually issued are returned as an explicit trace.
* `fetch` responses expose both `.text()` and `.json()`; a response record
  carries both views (`textBody`, `jsonBody`) of its underlying bytes.
-/
import Mathlib

namespace SageMcp

/-- JSON values, as produced by `JSON.parse` / consumed by `JSON.stringify`. -/
inductive Json where
  | null : Json
  | bool (b : Bool) : Json
  | num (q : Rat) : Json
  | str (s : String) : Json
  | arr (elems : List Json) : Json
  | obj (fields : List (String × Json)) : Json

/-- JavaScript runtime values as they occur in the server: JSON values plus
`undefined` (an absent optional argument read from the argument bag). -/
inductive JsValue where
  | undef : JsValue
  | null : JsValue
  | bool (b : Bool) : JsValue
  | num (q : Rat) : JsValue
  | str (s : String) : JsValue
  | arr (elems : List JsValue) : JsValue
  | obj (fields : List (String × JsValue)) : JsValue

mutual

/-- The value-level effect of `JSON.stringify`: `undefined` at top level
yields nothing, `undefined` object fields are dropped, `undefined` array
elements become `null`. -/
def JsValue.toJson? : JsValue → Option Json
  | .undef => none
  | .null => some .null
  | .bool b => some (.bool b)
  | .num q => some (.num q)
  | .str s => some (.str s)
  | .arr xs => some (.arr (JsValue.listToJson xs))
  | .obj fs => some (.obj (JsValue.fieldsToJson fs))

def JsValue.listToJson : List JsValue → List Json
  | [] => []
  | x :: xs => (x.toJson?.getD .null) :: JsValue.listToJson xs

def JsValue.fieldsToJson : List (String × JsValue) → List (String × Json)
  | [] => []
  | (k, v) :: fs =>
      match v.toJson? with
      | none => JsValue.fieldsToJson fs
      | some j => (k, j) :: JsValue.fieldsToJson fs

end

mutual

/-- Every object key occurring anywhere in a JSON value. -/
def Json.allKeys : Json → List String
  | .null | .bool _ | .num _ | .str _ => []
  | .arr xs => Json.listAllKeys xs
  | .obj fs => Json.fieldsAllKeys fs

def Json.listAllKeys : List Json → List String
  | [] => []
  | x :: xs => x.allKeys ++ Json.listAllKeys xs

def Json.fieldsAllKeys : List (String × Json) → List String
  | [] => []
  | (k, v) :: fs => k :: (v.allKeys ++ Json.fieldsAllKeys fs)

end

/-- Field lookup on a JSON object (`data.key` on a parsed response). -/
def Json.lookup : Json → String → Option Json
  | .obj fs, k => fs.lookup k
  | _, _ => none

/-- An HTTP response as delivered by `fetch`: status code, status text, and
the body, viewed both as raw text (`response.text()`) and as parsed JSON
(`response.json()`). -/
structure HttpResponse where
  status : Nat
  statusText : String
  textBody : String
  jsonBody : Json

/-- Model of `response.ok`: status in the inclusive range 200–299. -/
def HttpResponse.ok (r : HttpResponse) : Bool :=
  200 ≤ r.status && r.status ≤ 299

/-- The immutable configuration constants read from the environment at
startup: refresh credentials and the resolved base URL. -/
structure Config where
  refreshToken : String
  clientId : String
  clientSecret : String
  baseUrl : String
deriving DecidableEq, Repr

/-- The error taxonomy: one constructor per `throw` site in the source,
carrying the data interpolated into the thrown message. -/
inductive SageError where
  | authError : SageError
  | refreshMissing : SageError
  | refreshFailed (status : Nat) (statusText : String) : SageError
  | apiError (status : Nat) (statusText : String) (errorText : String) : SageError
  | apiRetryError (status : Nat) (statusText : String) : SageError
  | unknownTool (name : String) : SageError
deriving DecidableEq, Repr

/-- The exact message string each `throw new Error(...)` site produces. -/
def SageError.message : SageError → String
  | .authError =>
      "No access token configured. Please set SAGE_ACCESS_TOKEN in environment."
  | .refreshMissing =>
      "Cannot refresh token: missing SAGE_REFRESH_TOKEN, SAGE_CLIENT_ID, or SAGE_CLIENT_SECRET"
  | .refreshFailed status statusText =>
      "Token refresh failed: " ++ toString status ++ " " ++ statusText
  | .apiError status statusText errorText =>
      "Sage API error: " ++ toString status ++ " " ++ statusText ++ " - " ++ errorText
  | .apiRetryError status statusText =>
      "Sage API error: " ++ toString status ++ " " ++ statusText
  | .unknownTool name =>
      "Unknown tool: " ++ name

/-- The in-memory access token: a string, or `none` for JS `undefined`. -/
abbrev Token := Option String

/-- String interpolation of the token (JS renders `undefined` as the word). -/
def tokenToStr : Token → String
  | some s => s
  | none => "undefined"

/-- JS truthiness of the token (`!currentAccessToken`): falsy when
`undefined` or the empty string. -/
def tokenTruthy : Token → Bool
  | some s => s ≠ ""
  | none => false

/-- A request issued to the resource endpoint. -/
structure ResourceRequest where
  url : String
  method : String
  authorization : String
  body : Option Json

/-- The form-encoded body of a request to the token endpoint
(`URLSearchParams` of the refresh grant). -/
def refreshRequestParams (cfg : Config) : List (String × String) :=
  [("grant_type", "refresh_token"),
   ("refresh_token", cfg.refreshToken),
   ("client_id", cfg.clientId),
   ("client_secret", cfg.clientSecret)]

/-- The network oracle: the response the resource endpoint returns to its
n-th request, and likewise for the token endpoint. -/
structure Oracle where
  resource : Nat → HttpResponse
  token : Nat → HttpResponse

/-- Outcome of the refresh procedure `refreshAccessToken`. -/
inductive RefreshOutcome where
  | noAttempt (e : SageError) : RefreshOutcome
  | failed (e : SageError) : RefreshOutcome
  | refreshed (newToken : Token) : RefreshOutcome
deriving DecidableEq, Repr

/-- Model of reading `data.access_token` on the parsed token response: the unvalidated cast
means a missing or non-string field leaves `currentAccessToken` undefined. -/
def extractAccessToken (j : Json) : Token :=
  match j.lookup "access_token" with
  | some (Json.str s) => some s
  | _ => none

/-- Model of `refreshAccessToken` (src/src/index.ts lines 100–126): guard on
the three credentials, then one POST to the token endpoint; on a 2xx
response the new access token is extracted from the JSON body.  The second
component is the list of requests issued to the token endpoint. -/
def refreshAccessToken (cfg : Config) (resp : HttpResponse) :
    RefreshOutcome × List (List (String × String)) :=
  if cfg.refreshToken = "" || cfg.clientId = "" || cfg.clientSecret = "" then
    (.noAttempt .refreshMissing, [])
  else if !resp.ok then
    (.failed (.refreshFailed resp.status resp.statusText), [refreshRequestParams cfg])
  else
    (.refreshed (extractAccessToken resp.jsonBody), [refreshRequestParams cfg])

/-- Everything a run of `sageRequest` produces: the returned value or thrown
error, the final in-memory token, and the requests issued to each endpoint. -/
structure GatewayResult where
  outcome : Except SageError Json
  finalToken : Token
  resourceRequests : List ResourceRequest
  tokenRequests : List (List (String × String))

/-- Model of `sageRequest` (src/src/index.ts lines 48–95).  Guard on the
token, build the request, send it; on 401 refresh once and retry once with
the new bearer; on any other non-2xx throw; on 2xx return the parsed body. -/
def sageRequest (cfg : Config) (tok : Token) (endpoint : String)
    (method : String) (body : Option JsValue) (oracle : Oracle) : GatewayResult :=
  if !tokenTruthy tok then
    { outcome := .error .authError, finalToken := tok,
      resourceRequests := [], tokenRequests := [] }
  else
    let url := cfg.baseUrl ++ endpoint
    let sentBody : Option Json :=
      body.bind fun b =>
        if method = "POST" || method = "PUT" then b.toJson? else none
    let req1 : ResourceRequest :=
      { url := url, method := method,
        authorization := "Bearer " ++ tokenToStr tok, body := sentBody }
    let resp1 := oracle.resource 0
    if resp1.status = 401 then
      match refreshAccessToken cfg (oracle.token 0) with
      | (.noAttempt e, treqs) =>
          { outcome := .error e, finalToken := tok,
            resourceRequests := [req1], tokenRequests := treqs }
      | (.failed e, treqs) =>
          { outcome := .error e, finalToken := tok,
            resourceRequests := [req1], tokenRequests := treqs }
      | (.refreshed newTok, treqs) =>
          let req2 : ResourceRequest :=
            { req1 with authorization := "Bearer " ++ tokenToStr newTok }
          let resp2 := oracle.resource 1
          if !resp2.ok then
            { outcome := .error (.apiRetryError resp2.status resp2.statusText),
              finalToken := newTok,
              resourceRequests := [req1, req2], tokenRequests := treqs }
          else
            { outcome := .ok resp2.jsonBody, finalToken := newTok,
              resourceRequests := [req1, req2], tokenRequests := treqs }
    else if !resp1.ok then
      { outcome := .error (.apiError resp1.status resp1.statusText resp1.textBody),
        finalToken := tok, resourceRequests := [req1], tokenRequests := [] }
    else
      { outcome := .ok resp1.jsonBody, finalToken := tok,
        resourceRequests := [req1], tokenRequests := [] }

/-- JS truthiness of an optional string argument. -/
def strTruthy : Option String → Bool
  | none => false
  | some s => s ≠ ""

/-- JS truthiness of an optional number argument (0 is falsy). -/
def numTruthy : Option Rat → Bool
  | none => false
  | some q => q ≠ 0

/-- Model of `String(n)` on a JS number (integers print without a decimal point). -/
def jsNumToString (q : Rat) : String :=
  if q.den = 1 then toString q.num else toString q

/-- Model of `String(b)` on a JS boolean. -/
def jsBoolToString (b : Bool) : String :=
  if b then "true" else "false"

/-- Model of `x || dflt` on an optional string: the default replaces both an absent
and an empty (falsy) value. -/
def jsOrElse (v : Option String) (dflt : String) : String :=
  if strTruthy v then v.getD "" else dflt

/-- An optional string argument as the JS value read from the bag. -/
def optStr : Option String → JsValue
  | none => .undef
  | some s => .str s

/-- An optional number argument as the JS value read from the bag. -/
def optNum : Option Rat → JsValue
  | none => .undef
  | some q => .num q

/-- Model of `URLSearchParams.toString()` (percent-encoding is not modelled; no claim
depends on it). -/
def renderQuery (pairs : List (String × String)) : String :=
  String.intercalate "&" (pairs.map fun p => p.1 ++ "=" ++ p.2)

/-- The template suffix: the query string preceded by a question mark when
the rendered query is nonempty, nothing otherwise. -/
def querySuffix (pairs : List (String × String)) : String :=
  let q := renderQuery pairs
  if q = "" then "" else "?" ++ q

/- Argument records, one per tool, following the declared input schemas:
optional schema fields are `Option`, required ones are plain. -/

structure ListContactsArgs where
  contact_type : Option String := none
  search : Option String := none
  page : Option Rat := none
  items_per_page : Option Rat := none

structure CreateContactArgs where
  name : String
  contact_type_ids : Option (List String) := none
  reference : Option String := none
  email : Option String := none
  telephone : Option String := none
  address_line_1 : Option String := none
  city : Option String := none
  postal_code : Option String := none
  country_id : Option String := none

structure ListSalesInvoicesArgs where
  status : Option String := none
  contact_id : Option String := none
  from_date : Option String := none
  to_date : Option String := none
  page : Option Rat := none
  items_per_page : Option Rat := none

structure LineItem where
  description : String
  quantity : Rat
  unit_price : Rat
  tax_rate_id : Option String := none
  ledger_account_id : Option String := none

structure CreateSalesInvoiceArgs where
  contact_id : String
  date : Option String := none
  due_date : Option String := none
  reference : Option String := none
  notes : Option String := none
  line_items : List LineItem

structure ListPurchaseInvoicesArgs where
  status : Option String := none
  contact_id : Option String := none
  from_date : Option String := none
  to_date : Option String := none
  page : Option Rat := none

structure ListProductsArgs where
  search : Option String := none
  active : Option Bool := none
  page : Option Rat := none

structure CreateProductArgs where
  description : String
  sales_ledger_account_id : Option String := none
  purchase_ledger_account_id : Option String := none
  sales_tax_rate_id : Option String := none
  purchase_tax_rate_id : Option String := none
  item_code : Option String := none
  sales_price : Option Rat := none
  purchase_price : Option Rat := none

structure ListPaymentsArgs where
  contact_id : Option String := none
  from_date : Option String := none
  to_date : Option String := none
  page : Option Rat := none

structure ListLedgerAccountsArgs where
  ledger_account_type_id : Option String := none
  visible_in : Option String := none

structure CreateOtherPaymentArgs where
  bank_account_id : String
  date : String
  total_amount : Rat
  tax_rate_id : String
  ledger_account_id : String
  contact_id : Option String := none
  reference : Option String := none
  net_amount : Option Rat := none

structure InvoiceAllocation where
  invoice_id : String
  amount : Rat

structure CreatePurchaseInvoicePaymentArgs where
  contact_id : String
  bank_account_id : String
  date : String
  total_amount : Rat
  invoice_allocations : List InvoiceAllocation
  reference : Option String := none

/- Query builders, mirroring the `URLSearchParams.append` guards of the
corresponding switch cases. -/

/-- Query of the sage_list_contacts case (src/src/index.ts lines 713–724). -/
def listContactsQuery (a : ListContactsArgs) : List (String × String) :=
  (if strTruthy a.contact_type && a.contact_type ≠ some "all" then
    [("contact_type_id", a.contact_type.getD "")] else [])
  ++ (if strTruthy a.search then [("search", a.search.getD "")] else [])
  ++ (if numTruthy a.page then [("page", jsNumToString (a.page.getD 0))] else [])
  ++ (if numTruthy a.items_per_page then
    [("items_per_page", jsNumToString (a.items_per_page.getD 0))] else [])

/-- Query of the sage_list_sales_invoices case (lines 752–763). -/
def listSalesInvoicesQuery (a : ListSalesInvoicesArgs) : List (String × String) :=
  (if strTruthy a.status then [("status_id", a.status.getD "")] else [])
  ++ (if strTruthy a.contact_id then [("contact_id", a.contact_id.getD "")] else [])
  ++ (if strTruthy a.from_date then [("from_date", a.from_date.getD "")] else [])
  ++ (if strTruthy a.to_date then [("to_date", a.to_date.getD "")] else [])
  ++ (if numTruthy a.page then [("page", jsNumToString (a.page.getD 0))] else [])
  ++ (if numTruthy a.items_per_page then
    [("items_per_page", jsNumToString (a.items_per_page.getD 0))] else [])

/-- Query of the sage_list_purchase_invoices case (lines 792–801). -/
def listPurchaseInvoicesQuery (a : ListPurchaseInvoicesArgs) : List (String × String) :=
  (if strTruthy a.status then [("status_id", a.status.getD "")] else [])
  ++ (if strTruthy a.contact_id then [("contact_id", a.contact_id.getD "")] else [])
  ++ (if strTruthy a.from_date then [("from_date", a.from_date.getD "")] else [])
  ++ (if strTruthy a.to_date then [("to_date", a.to_date.getD "")] else [])
  ++ (if numTruthy a.page then [("page", jsNumToString (a.page.getD 0))] else [])

/-- Query of the sage_list_products case (lines 815–822); note the `active`
guard is `!== undefined`, not truthiness. -/
def listProductsQuery (a : ListProductsArgs) : List (String × String) :=
  (if strTruthy a.search then [("search", a.search.getD "")] else [])
  ++ (if a.active.isSome then [("active", jsBoolToString (a.active.getD false))] else [])
  ++ (if numTruthy a.page then [("page", jsNumToString (a.page.getD 0))] else [])

/-- Query of the sage_list_payments case (lines 844–852). -/
def listPaymentsQuery (a : ListPaymentsArgs) : List (String × String) :=
  (if strTruthy a.contact_id then [("contact_id", a.contact_id.getD "")] else [])
  ++ (if strTruthy a.from_date then [("from_date", a.from_date.getD "")] else [])
  ++ (if strTruthy a.to_date then [("to_date", a.to_date.getD "")] else [])
  ++ (if numTruthy a.page then [("page", jsNumToString (a.page.getD 0))] else [])

/-- Query of the sage_list_ledger_accounts case (lines 857–865). -/
def listLedgerAccountsQuery (a : ListLedgerAccountsArgs) : List (String × String) :=
  (if strTruthy a.ledger_account_type_id then
    [("ledger_account_type_id", a.ledger_account_type_id.getD "")] else [])
  ++ (if strTruthy a.visible_in then [("visible_in", a.visible_in.getD "")] else [])

/- Body builders, mirroring the object literals of the write cases.  Each
produces the JS value handed to `sageRequest`; serialization to JSON
(dropping `undefined` fields) happens inside the gateway. -/

/-- Body of the sage_create_contact case (lines 731–748); note
`contact_type_ids: params.contact_type_ids || []` and the always-present
`main_address` wrapper. -/
def createContactBody (a : CreateContactArgs) : JsValue :=
  .obj [("contact", .obj [
    ("name", .str a.name),
    ("contact_type_ids", .arr ((a.contact_type_ids.getD []).map .str)),
    ("reference", optStr a.reference),
    ("main_address", .obj [
      ("address_line_1", optStr a.address_line_1),
      ("city", optStr a.city),
      ("postal_code", optStr a.postal_code),
      ("country_id", optStr a.country_id)]),
    ("email", optStr a.email),
    ("telephone", optStr a.telephone)])]

/-- One mapped invoice line (lines 778–784 and 927–933). -/
def lineItemJs (it : LineItem) : JsValue :=
  .obj [("description", .str it.description),
    ("quantity", .num it.quantity),
    ("unit_price", .num it.unit_price),
    ("tax_rate_id", optStr it.tax_rate_id),
    ("ledger_account_id", optStr it.ledger_account_id)]

/-- Body of the sage_create_sales_invoice case (lines 770–788);
`date: params.date || <today>` defaults a missing or empty date. -/
def createSalesInvoiceBody (today : String) (a : CreateSalesInvoiceArgs) : JsValue :=
  .obj [("sales_invoice", .obj [
    ("contact_id", .str a.contact_id),
    ("date", .str (jsOrElse a.date today)),
    ("due_date", optStr a.due_date),
    ("reference", optStr a.reference),
    ("notes", optStr a.notes),
    ("invoice_lines", .arr (a.line_items.map lineItemJs))])]

/-- Body of the sage_create_product case (lines 826–840); `sales_prices`
is a one-element array when `sales_price` is truthy, undefined otherwise. -/
def createProductBody (a : CreateProductArgs) : JsValue :=
  .obj [("product", .obj [
    ("description", .str a.description),
    ("item_code", optStr a.item_code),
    ("sales_ledger_account_id", optStr a.sales_ledger_account_id),
    ("purchase_ledger_account_id", optStr a.purchase_ledger_account_id),
    ("sales_tax_rate_id", optStr a.sales_tax_rate_id),
    ("purchase_tax_rate_id", optStr a.purchase_tax_rate_id),
    ("sales_prices", if numTruthy a.sales_price then
      .arr [.obj [("price", .num (a.sales_price.getD 0))]] else .undef),
    ("purchase_price", optNum a.purchase_price)])]

/-- Body of the sage_create_other_payment case (lines 875–893). -/
def createOtherPaymentBody (a : CreateOtherPaymentArgs) : JsValue :=
  .obj [("other_payment", .obj [
    ("bank_account_id", .str a.bank_account_id),
    ("date", .str a.date),
    ("reference", optStr a.reference),
    ("contact_id", optStr a.contact_id),
    ("payment_lines", .arr [.obj [
      ("ledger_account_id", .str a.ledger_account_id),
      ("total_amount", .num a.total_amount),
      ("net_amount", optNum a.net_amount),
      ("tax_rate_id", .str a.tax_rate_id)]])])]

/-- Body of the sage_create_other_receipt case (lines 897–915). -/
def createOtherReceiptBody (a : CreateOtherPaymentArgs) : JsValue :=
  .obj [("other_receipt", .obj [
    ("bank_account_id", .str a.bank_account_id),
    ("date", .str a.date),
    ("reference", optStr a.reference),
    ("contact_id", optStr a.contact_id),
    ("payment_lines", .arr [.obj [
      ("ledger_account_id", .str a.ledger_account_id),
      ("total_amount", .num a.total_amount),
      ("net_amount", optNum a.net_amount),
      ("tax_rate_id", .str a.tax_rate_id)]])])]

/-- Body of the sage_create_purchase_invoice case (lines 919–936). -/
def createPurchaseInvoiceBody (today : String) (a : CreateSalesInvoiceArgs) : JsValue :=
  .obj [("purchase_invoice", .obj [
    ("contact_id", .str a.contact_id),
    ("date", .str (jsOrElse a.date today)),
    ("due_date", optStr a.due_date),
    ("reference", optStr a.reference),
    ("notes", optStr a.notes),
    ("invoice_lines", .arr (a.line_items.map lineItemJs))])]

/-- Body of the sage_create_purchase_invoice_payment case (lines 941–955). -/
def createPurchaseInvoicePaymentBody (a : CreatePurchaseInvoicePaymentArgs) : JsValue :=
  .obj [("contact_payment", .obj [
    ("contact_id", .str a.contact_id),
    ("bank_account_id", .str a.bank_account_id),
    ("date", .str a.date),
    ("total_amount", .num a.total_amount),
    ("reference", optStr a.reference),
    ("allocated_artefacts", .arr (a.invoice_allocations.map fun al =>
      .obj [("artefact_id", .str al.invoice_id), ("amount", .num al.amount)]))])]

/-- A tool invocation: one constructor per registered tool, carrying the
schema-conformant argument bag, plus `unknown` for any unregistered name. -/
inductive ToolCall where
  | listContacts (a : ListContactsArgs) : ToolCall
  | getContact (contact_id : String) : ToolCall
  | createContact (a : CreateContactArgs) : ToolCall
  | listSalesInvoices (a : ListSalesInvoicesArgs) : ToolCall
  | getSalesInvoice (invoice_id : String) : ToolCall
  | createSalesInvoice (a : CreateSalesInvoiceArgs) : ToolCall
  | listPurchaseInvoices (a : ListPurchaseInvoicesArgs) : ToolCall
  | listBankAccounts : ToolCall
  | getBankAccount (bank_account_id : String) : ToolCall
  | listProducts (a : ListProductsArgs) : ToolCall
  | createProduct (a : CreateProductArgs) : ToolCall
  | listPayments (a : ListPaymentsArgs) : ToolCall
  | listLedgerAccounts (a : ListLedgerAccountsArgs) : ToolCall
  | listTaxRates : ToolCall
  | getBusiness : ToolCall
  | createOtherPayment (a : CreateOtherPaymentArgs) : ToolCall
  | createOtherReceipt (a : CreateOtherPaymentArgs) : ToolCall
  | createPurchaseInvoice (a : CreateSalesInvoiceArgs) : ToolCall
  | createPurchaseInvoicePayment (a : CreatePurchaseInvoicePaymentArgs) : ToolCall
  | unknown (name : String) : ToolCall

/-- The `name` field of the invocation request. -/
def ToolCall.name : ToolCall → String
  | .listContacts _ => "sage_list_contacts"
  | .getContact _ => "sage_get_contact"
  | .createContact _ => "sage_create_contact"
  | .listSalesInvoices _ => "sage_list_sales_invoices"
  | .getSalesInvoice _ => "sage_get_sales_invoice"
  | .createSalesInvoice _ => "sage_create_sales_invoice"
  | .listPurchaseInvoices _ => "sage_list_purchase_invoices"
  | .listBankAccounts => "sage_list_bank_accounts"
  | .getBankAccount _ => "sage_get_bank_account"
  | .listProducts _ => "sage_list_products"
  | .createProduct _ => "sage_create_product"
  | .listPayments _ => "sage_list_payments"
  | .listLedgerAccounts _ => "sage_list_ledger_accounts"
  | .listTaxRates => "sage_list_tax_rates"
  | .getBusiness => "sage_get_business"
  | .createOtherPayment _ => "sage_create_other_payment"
  | .createOtherReceipt _ => "sage_create_other_receipt"
  | .createPurchaseInvoice _ => "sage_create_purchase_invoice"
  | .createPurchaseInvoicePayment _ => "sage_create_purchase_invoice_payment"
  | .unknown n => n

/-- The tool names declared in the ListTools response (lines 142–701). -/
def registeredToolNames : List String :=
  ["sage_list_contacts", "sage_get_contact", "sage_create_contact",
   "sage_list_sales_invoices", "sage_get_sales_invoice", "sage_create_sales_invoice",
   "sage_list_purchase_invoices", "sage_list_bank_accounts", "sage_get_bank_account",
   "sage_list_products", "sage_create_product", "sage_list_payments",
   "sage_list_ledger_accounts", "sage_list_tax_rates", "sage_get_business",
   "sage_create_other_payment", "sage_create_other_receipt",
   "sage_create_purchase_invoice", "sage_create_purchase_invoice_payment"]

/-- Whether the invocation hits a switch case rather than the default. -/
def ToolCall.isKnown : ToolCall → Bool
  | .unknown _ => false
  | _ => true

/-- The request a switch case hands to `sageRequest`: endpoint (with query
suffix), HTTP method, and optional JS body. -/
structure RequestSpec where
  endpoint : String
  method : String
  body : Option JsValue

/-- The dispatch table (the switch on the tool name, lines 711–966):
`none` for the default case, otherwise the endpoint/method/body the case
passes to `sageRequest`.  `today` is the value of
`new Date().toISOString().split("T")[0]` at the time of the call. -/
def buildRequest (today : String) : ToolCall → Option RequestSpec
  | .listContacts a =>
      some ⟨"/contacts" ++ querySuffix (listContactsQuery a), "GET", none⟩
  | .getContact contact_id => some ⟨"/contacts/" ++ contact_id, "GET", none⟩
  | .createContact a => some ⟨"/contacts", "POST", some (createContactBody a)⟩
  | .listSalesInvoices a =>
      some ⟨"/sales_invoices" ++ querySuffix (listSalesInvoicesQuery a), "GET", none⟩
  | .getSalesInvoice invoice_id => some ⟨"/sales_invoices/" ++ invoice_id, "GET", none⟩
  | .createSalesInvoice a =>
      some ⟨"/sales_invoices", "POST", some (createSalesInvoiceBody today a)⟩
  | .listPurchaseInvoices a =>
      some ⟨"/purchase_invoices" ++ querySuffix (listPurchaseInvoicesQuery a), "GET", none⟩
  | .listBankAccounts => some ⟨"/bank_accounts", "GET", none⟩
  | .getBankAccount bank_account_id =>
      some ⟨"/bank_accounts/" ++ bank_account_id, "GET", none⟩
  | .listProducts a =>
      some ⟨"/products" ++ querySuffix (listProductsQuery a), "GET", none⟩
  | .createProduct a => some ⟨"/products", "POST", some (createProductBody a)⟩
  | .listPayments a =>
      some ⟨"/contact_payments" ++ querySuffix (listPaymentsQuery a), "GET", none⟩
  | .listLedgerAccounts a =>
      some ⟨"/ledger_accounts" ++ querySuffix (listLedgerAccountsQuery a), "GET", none⟩
  | .listTaxRates => some ⟨"/tax_rates", "GET", none⟩
  | .getBusiness => some ⟨"/business", "GET", none⟩
  | .createOtherPayment a =>
      some ⟨"/other_payments", "POST", some (createOtherPaymentBody a)⟩
  | .createOtherReceipt a =>
      some ⟨"/other_receipts", "POST", some (createOtherReceiptBody a)⟩
  | .createPurchaseInvoice a =>
      some ⟨"/purchase_invoices", "POST", some (createPurchaseInvoiceBody today a)⟩
  | .createPurchaseInvoicePayment a =>
      some ⟨"/contact_payments", "POST", some (createPurchaseInvoicePaymentBody a)⟩
  | .unknown _ => none

mutual

/-- A rendering of the returned JSON for the success text (the pretty
printer's whitespace and string escaping are not modelled; no claim
inspects the success text). -/
def Json.render : Json → String
  | .null => "null"
  | .bool b => jsBoolToString b
  | .num q => jsNumToString q
  | .str s => "\x22" ++ s ++ "\x22"
  | .arr xs => "[" ++ Json.renderList xs ++ "]"
  | .obj fs => "\x7b" ++ Json.renderFields fs ++ "\x7d"

def Json.renderList : List Json → String
  | [] => ""
  | [x] => x.render
  | x :: xs => x.render ++ "," ++ Json.renderList xs

def Json.renderFields : List (String × Json) → String
  | [] => ""
  | [(k, v)] => "\x22" ++ k ++ "\x22:" ++ v.render
  | (k, v) :: fs => "\x22" ++ k ++ "\x22:" ++ v.render ++ "," ++ Json.renderFields fs

end

/-- The uniform tool result: a text content block plus the error flag. -/
structure ToolResponse where
  text : String
  isError : Bool
deriving DecidableEq, Repr

/-- The network requests a single invocation caused. -/
structure CallTrace where
  resourceRequests : List ResourceRequest
  tokenRequests : List (List (String × String))

/-- Model of the CallTool handler (lines 704–988): dispatch through the
switch, run the gateway, stringify a success, and convert any thrown error
into the error-flagged `Error: <message>` response. -/
def handleToolCall (cfg : Config) (tok : Token) (today : String)
    (call : ToolCall) (oracle : Oracle) : ToolResponse × CallTrace :=
  match buildRequest today call with
  | none =>
      (⟨"Error: " ++ (SageError.unknownTool call.name).message, true⟩, ⟨[], []⟩)
  | some spec =>
      let r := sageRequest cfg tok spec.endpoint spec.method spec.body oracle
      match r.outcome with
      | .ok j => (⟨j.render, false⟩, ⟨r.resourceRequests, r.tokenRequests⟩)
      | .error e =>
          (⟨"Error: " ++ e.message, true⟩, ⟨r.resourceRequests, r.tokenRequests⟩)

/-- Classification of an error as a refresh failure (the two `throw` sites
of `refreshAccessToken`). -/
def SageError.isRefreshError : SageError → Bool
  | .refreshMissing => true
  | .refreshFailed _ _ => true
  | _ => false

/-- The error `refreshAccessToken` throws when it cannot refresh: the
precondition message if a credential is missing, the status message if the
token endpoint answered non-2xx. -/
def refreshFailureError (cfg : Config) (tresp : HttpResponse) : SageError :=
  if cfg.refreshToken = "" || cfg.clientId = "" || cfg.clientSecret = "" then
    .refreshMissing
  else
    .refreshFailed tresp.status tresp.statusText

/-- The response-body text an error carries, if any (only the first-attempt
API error embeds the body). -/
def SageError.carriedBody : SageError → Option String
  | .apiError _ _ t => some t
  | _ => none

/-- The HTTP status an error carries, if any. -/
def SageError.carriedStatus : SageError → Option Nat
  | .refreshFailed s _ => some s
  | .apiError s _ _ => some s
  | .apiRetryError s _ => some s
  | _ => none

/-- The whole credential state: the one mutable variable
(`currentAccessToken`) together with the surrounding constants. -/
structure CredState where
  currentAccessToken : Token
  cfg : Config
deriving DecidableEq, Repr

/-- The refresh procedure as a state transformer: reads the refresh
credentials from the constants, writes only `currentAccessToken`. -/
def applyRefresh (s : CredState) (resp : HttpResponse) : Except SageError CredState :=
  match refreshAccessToken s.cfg resp with
  | (.noAttempt e, _) => .error e
  | (.failed e, _) => .error e
  | (.refreshed t, _) => .ok { s with currentAccessToken := t }

/- Concrete fixtures used by witnesses and counterexamples. -/

/-- A configuration with all refresh credentials present. -/
def sampleCfg : Config :=
  { refreshToken := "rt", clientId := "ci", clientSecret := "cs",
    baseUrl := "https://api.accounting.sage.com/v3.1" }

/-- A 401 response from the resource endpoint. -/
def unauthorizedResp : HttpResponse :=
  { status := 401, statusText := "Unauthorized", textBody := "expired", jsonBody := .null }

/-- A successful token-endpoint response carrying a fresh access token. -/
def tokenOkResp : HttpResponse :=
  { status := 200, statusText := "OK", textBody := "",
    jsonBody := .obj [("access_token", .str "fresh")] }

/-- A successful resource response with a recognizable JSON body. -/
def okResp : HttpResponse :=
  { status := 200, statusText := "OK", textBody := "",
    jsonBody := .obj [("items", .arr [])] }

/-- An oracle whose first resource response is 401, whose token endpoint
succeeds, and whose second resource response is the given one. -/
def oracle401Retry (second : HttpResponse) : Oracle :=
  { resource := fun n => if n = 0 then unauthorizedResp else second,
    token := fun _ => tokenOkResp }

/-- Number of requests the refresh procedure issues: at most one. -/
theorem refreshAccessToken_le_one (cfg : Config) (resp : HttpResponse) :
    (refreshAccessToken cfg resp).2.length ≤ 1 := by
  unfold refreshAccessToken
  split_ifs <;> simp

/-- C1: a call whose first resource response is 401, whose refresh succeeds,
and whose reissued request succeeds returns the retry response's decoded
JSON body, having issued exactly two resource requests and one token
request. -/
theorem c1_refresh_retry_returns_retry_body
    (cfg : Config) (tok : Token) (endpoint method : String)
    (body : Option JsValue) (oracle : Oracle)
    (htok : tokenTruthy tok = true)
    (h401 : (oracle.resource 0).status = 401)
    (hrt : cfg.refreshToken ≠ "") (hci : cfg.clientId ≠ "") (hcs : cfg.clientSecret ≠ "")
    (htk : (oracle.token 0).ok = true)
    (hretry : (oracle.resource 1).ok = true) :
    (sageRequest cfg tok endpoint method body oracle).outcome =
      .ok (oracle.resource 1).jsonBody ∧
    (sageRequest cfg tok endpoint method body oracle).resourceRequests.length = 2 ∧
    (sageRequest cfg tok endpoint method body oracle).tokenRequests.length = 1 := by
  simp [sageRequest, refreshAccessToken, htok, h401, hrt, hci, hcs, htk, hretry]

/-- Witness for C1 at a concrete configuration and oracle. -/
theorem c1_refresh_retry_returns_retry_body_witness :
    ((oracle401Retry okResp).resource 0).status = 401 ∧
    ((oracle401Retry okResp).token 0).ok = true ∧
    ((oracle401Retry okResp).resource 1).ok = true ∧
    ((sageRequest sampleCfg (some "tok") "/contacts" "GET" none
        (oracle401Retry okResp)).outcome = .ok (.obj [("items", .arr [])]) ∧
      (sageRequest sampleCfg (some "tok") "/contacts" "GET" none
        (oracle401Retry okResp)).resourceRequests.length = 2 ∧
      (sageRequest sampleCfg (some "tok") "/contacts" "GET" none
        (oracle401Retry okResp)).tokenRequests.length = 1) :=
  ⟨by decide, by decide, by decide,
    c1_refresh_retry_returns_retry_body sampleCfg (some "tok") "/contacts" "GET" none
      (oracle401Retry okResp) (by decide) (by decide) (by decide) (by decide)
      (by decide) (by decide) (by decide)⟩

/-- C2: at most one refresh per call, and a 401 on the retry is surfaced as
the retry-path API error with no further refresh and no third request. -/
theorem c2_at_most_one_refresh :
    (∀ (cfg : Config) (tok : Token) (endpoint method : String)
        (body : Option JsValue) (oracle : Oracle),
      (sageRequest cfg tok endpoint method body oracle).tokenRequests.length ≤ 1) ∧
    (∀ (cfg : Config) (tok : Token) (endpoint method : String)
        (body : Option JsValue) (oracle : Oracle),
      tokenTruthy tok = true →
      (oracle.resource 0).status = 401 →
      cfg.refreshToken ≠ "" → cfg.clientId ≠ "" → cfg.clientSecret ≠ "" →
      (oracle.token 0).ok = true →
      (oracle.resource 1).status = 401 →
      (sageRequest cfg tok endpoint method body oracle).outcome =
        .error (.apiRetryError 401 (oracle.resource 1).statusText) ∧
      (sageRequest cfg tok endpoint method body oracle).resourceRequests.length = 2 ∧
      (sageRequest cfg tok endpoint method body oracle).tokenRequests.length = 1) := by
  constructor
  · intro cfg tok endpoint method body oracle
    have hle := refreshAccessToken_le_one cfg (oracle.token 0)
    simp only [sageRequest]
    split
    · simp
    · split
      · split <;> rename_i heq <;> rw [heq] at hle <;> simp_all <;> split <;> simp_all
      · split <;> simp
  · intro cfg tok endpoint method body oracle htok h401 hrt hci hcs htk hretry
    have hretryok : (oracle.resource 1).ok = false := by
      simp [HttpResponse.ok, hretry]
    simp [sageRequest, refreshAccessToken, htok, h401, hrt, hci, hcs, htk, hretryok,
      hretry]

/-- Witness for C2's retry-401 branch at a concrete oracle. -/
theorem c2_at_most_one_refresh_witness :
    ((oracle401Retry unauthorizedResp).resource 1).status = 401 ∧
    ((sageRequest sampleCfg (some "tok") "/contacts" "GET" none
        (oracle401Retry unauthorizedResp)).outcome =
      .error (.apiRetryError 401 "Unauthorized") ∧
    (sageRequest sampleCfg (some "tok") "/contacts" "GET" none
        (oracle401Retry unauthorizedResp)).resourceRequests.length = 2 ∧
    (sageRequest sampleCfg (some "tok") "/contacts" "GET" none
        (oracle401Retry unauthorizedResp)).tokenRequests.length = 1) :=
  ⟨by decide,
    c2_at_most_one_refresh.2 sampleCfg (some "tok") "/contacts" "GET" none
      (oracle401Retry unauthorizedResp) (by decide) (by decide) (by decide) (by decide)
      (by decide) (by decide) (by decide)⟩

/-- A configuration lacking the refresh token, so no refresh can be
attempted. -/
def cfgNoRefresh : Config :=
  { refreshToken := "", clientId := "ci", clientSecret := "cs",
    baseUrl := "https://api.accounting.sage.com/v3.1" }

/-- An oracle whose resource endpoint always answers 401. -/
def oracleAlways401 : Oracle :=
  { resource := fun _ => unauthorizedResp, token := fun _ => tokenOkResp }

/-- The refresh failure error is always one of the two refresh throw
sites. -/
theorem refreshFailureError_isRefreshError (cfg : Config) (tresp : HttpResponse) :
    (refreshFailureError cfg tresp).isRefreshError = true := by
  unfold refreshFailureError
  split <;> simp [SageError.isRefreshError]

/-- Gateway behaviour on a 401 when the refresh cannot succeed: the refresh
error propagates and only the single original resource request was made. -/
theorem sageRequest_refresh_failure
    (cfg : Config) (tok : Token) (endpoint method : String)
    (body : Option JsValue) (oracle : Oracle)
    (htok : tokenTruthy tok = true)
    (h401 : (oracle.resource 0).status = 401)
    (hfail : cfg.refreshToken = "" ∨ cfg.clientId = "" ∨ cfg.clientSecret = "" ∨
      (oracle.token 0).ok = false) :
    (sageRequest cfg tok endpoint method body oracle).outcome =
      .error (refreshFailureError cfg (oracle.token 0)) ∧
    (sageRequest cfg tok endpoint method body oracle).resourceRequests.length = 1 := by
  by_cases h1 : cfg.refreshToken = ""
  · simp [sageRequest, refreshAccessToken, refreshFailureError, htok, h401, h1]
  by_cases h2 : cfg.clientId = ""
  · simp [sageRequest, refreshAccessToken, refreshFailureError, htok, h401, h1, h2]
  by_cases h3 : cfg.clientSecret = ""
  · simp [sageRequest, refreshAccessToken, refreshFailureError, htok, h401, h1, h2, h3]
  have hnot : (oracle.token 0).ok = false := by tauto
  simp [sageRequest, refreshAccessToken, refreshFailureError, htok, h401, h1, h2, h3, hnot]

/-- Every known tool call resolves to some request specification. -/
theorem buildRequest_isSome (today : String) (call : ToolCall)
    (hk : call.isKnown = true) :
    ∃ spec, buildRequest today call = some spec := by
  cases call <;> simp [buildRequest, ToolCall.isKnown] at hk ⊢

/-- The handler converts a gateway error into the error-flagged response
and passes the gateway's request trace through. -/
theorem handleToolCall_error (cfg : Config) (tok : Token) (today : String)
    (call : ToolCall) (oracle : Oracle) (spec : RequestSpec) (e : SageError)
    (hs : buildRequest today call = some spec)
    (he : (sageRequest cfg tok spec.endpoint spec.method spec.body oracle).outcome =
      .error e) :
    handleToolCall cfg tok today call oracle =
      (⟨"Error: " ++ e.message, true⟩,
       ⟨(sageRequest cfg tok spec.endpoint spec.method spec.body oracle).resourceRequests,
        (sageRequest cfg tok spec.endpoint spec.method spec.body oracle).tokenRequests⟩) := by
  simp [handleToolCall, hs, he]

/-- C3: a 401 followed by an unattemptable or failed refresh yields the
error-flagged refresh error at the tool boundary, with no retry request. -/
theorem c3_refresh_failure_no_retry (cfg : Config) (tok : Token) (today : String)
    (call : ToolCall) (oracle : Oracle)
    (hk : call.isKnown = true)
    (htok : tokenTruthy tok = true)
    (h401 : (oracle.resource 0).status = 401)
    (hfail : cfg.refreshToken = "" ∨ cfg.clientId = "" ∨ cfg.clientSecret = "" ∨
      (oracle.token 0).ok = false) :
    (handleToolCall cfg tok today call oracle).1.isError = true ∧
    (handleToolCall cfg tok today call oracle).1.text =
      "Error: " ++ (refreshFailureError cfg (oracle.token 0)).message ∧
    (refreshFailureError cfg (oracle.token 0)).isRefreshError = true ∧
    (handleToolCall cfg tok today call oracle).2.resourceRequests.length = 1 := by
  obtain ⟨spec, hs⟩ := buildRequest_isSome today call hk
  obtain ⟨ho, hl⟩ := sageRequest_refresh_failure cfg tok spec.endpoint spec.method
    spec.body oracle htok h401 hfail
  rw [handleToolCall_error cfg tok today call oracle spec _ hs ho]
  exact ⟨rfl, rfl, refreshFailureError_isRefreshError cfg (oracle.token 0), hl⟩

/-- Witness for C3: missing refresh token, concrete call and oracle. -/
theorem c3_refresh_failure_no_retry_witness :
    (ToolCall.getContact "X").isKnown = true ∧
    cfgNoRefresh.refreshToken = "" ∧
    ((handleToolCall cfgNoRefresh (some "tok") "2026-10-11" (.getContact "X")
        oracleAlways401).1.isError = true ∧
      (handleToolCall cfgNoRefresh (some "tok") "2026-10-11" (.getContact "X")
        oracleAlways401).1.text =
        "Error: " ++ SageError.refreshMissing.message ∧
      (handleToolCall cfgNoRefresh (some "tok") "2026-10-11" (.getContact "X")
        oracleAlways401).2.resourceRequests.length = 1) :=
  ⟨by decide, by decide,
    let h := c3_refresh_failure_no_retry cfgNoRefresh (some "tok") "2026-10-11"
      (.getContact "X") oracleAlways401 (by decide) (by decide) (by decide)
      (Or.inl (by decide))
    ⟨h.1, h.2.1, h.2.2.2⟩⟩

/-- A 500 response whose body text is recognizable. -/
def serverErrorResp : HttpResponse :=
  { status := 500, statusText := "Internal Server Error",
    textBody := "boom42", jsonBody := .null }

/-- An oracle that always answers 500 on the resource endpoint. -/
def oracleAlways500 : Oracle :=
  { resource := fun _ => serverErrorResp, token := fun _ => tokenOkResp }

/-- C7 counterexample to the claim as stated: a refresh-then-retry run whose
retry answers 500 with body text produces an error that carries no body
excerpt at all. -/
theorem c7_counterexample :
    (sageRequest sampleCfg (some "tok") "/contacts" "GET" none
      (oracle401Retry serverErrorResp)).outcome =
      .error (.apiRetryError 500 "Internal Server Error") ∧
    (SageError.apiRetryError 500 "Internal Server Error").carriedBody = none ∧
    serverErrorResp.textBody = "boom42" := by
  refine ⟨?_, rfl, rfl⟩
  simp [sageRequest, refreshAccessToken, sampleCfg, oracle401Retry, tokenOkResp,
    unauthorizedResp, serverErrorResp, tokenTruthy, HttpResponse.ok]

/-- C7 amended: a first response that is non-2xx and not 401 fails with an
API error carrying the status and the response body verbatim; a non-2xx
retry after a refresh fails with an API error carrying the status and
status text but no body excerpt. -/
theorem c7_api_error_content :
    (∀ (cfg : Config) (tok : Token) (endpoint method : String)
        (body : Option JsValue) (oracle : Oracle),
      tokenTruthy tok = true →
      (oracle.resource 0).status ≠ 401 →
      (oracle.resource 0).ok = false →
      (sageRequest cfg tok endpoint method body oracle).outcome =
        .error (.apiError (oracle.resource 0).status (oracle.resource 0).statusText
          (oracle.resource 0).textBody) ∧
      (SageError.apiError (oracle.resource 0).status (oracle.resource 0).statusText
        (oracle.resource 0).textBody).carriedStatus = some (oracle.resource 0).status ∧
      (SageError.apiError (oracle.resource 0).status (oracle.resource 0).statusText
        (oracle.resource 0).textBody).carriedBody = some (oracle.resource 0).textBody) ∧
    (∀ (cfg : Config) (tok : Token) (endpoint method : String)
        (body : Option JsValue) (oracle : Oracle),
      tokenTruthy tok = true →
      (oracle.resource 0).status = 401 →
      cfg.refreshToken ≠ "" → cfg.clientId ≠ "" → cfg.clientSecret ≠ "" →
      (oracle.token 0).ok = true →
      (oracle.resource 1).ok = false →
      (sageRequest cfg tok endpoint method body oracle).outcome =
        .error (.apiRetryError (oracle.resource 1).status (oracle.resource 1).statusText) ∧
      (SageError.apiRetryError (oracle.resource 1).status
        (oracle.resource 1).statusText).carriedStatus = some (oracle.resource 1).status ∧
      (SageError.apiRetryError (oracle.resource 1).status
        (oracle.resource 1).statusText).carriedBody = none) := by
  constructor
  · intro cfg tok endpoint method body oracle htok hne hok
    simp [sageRequest, htok, hne, hok, SageError.carriedStatus, SageError.carriedBody]
  · intro cfg tok endpoint method body oracle htok h401 hrt hci hcs htk hretry
    simp [sageRequest, refreshAccessToken, htok, h401, hrt, hci, hcs, htk, hretry,
      SageError.carriedStatus, SageError.carriedBody]

/-- Witness for C7 amended, first branch, at a concrete 500 first
response. -/
theorem c7_api_error_content_witness :
    serverErrorResp.ok = false ∧
    (sageRequest sampleCfg (some "tok") "/contacts" "GET" none
      oracleAlways500).outcome =
      .error (.apiError 500 "Internal Server Error" "boom42") :=
  ⟨by decide,
    (c7_api_error_content.1 sampleCfg (some "tok") "/contacts" "GET" none
      oracleAlways500 (by decide) (by decide) (by decide)).1⟩

/-- C8: a successful refresh changes nothing but the in-memory access
token: the constants (refresh token, client credentials, base URL) are
unchanged, so every later refresh issues the same token request. -/
theorem c8_refresh_frame (s : CredState) (resp : HttpResponse) (s2 : CredState)
    (h : applyRefresh s resp = .ok s2) :
    s2.cfg = s.cfg ∧
    s2.cfg.refreshToken = s.cfg.refreshToken ∧
    s2.cfg.clientId = s.cfg.clientId ∧
    s2.cfg.clientSecret = s.cfg.clientSecret ∧
    s2.cfg.baseUrl = s.cfg.baseUrl ∧
    (∀ r : HttpResponse, refreshAccessToken s2.cfg r = refreshAccessToken s.cfg r) ∧
    refreshRequestParams s2.cfg = refreshRequestParams s.cfg := by
  have hcfg : s2.cfg = s.cfg := by
    unfold applyRefresh at h
    split at h
    · exact absurd h (by simp)
    · exact absurd h (by simp)
    · rw [Except.ok.injEq] at h
      subst h
      rfl
  simp [hcfg]

/-- Witness for C8 at a concrete state and token response. -/
theorem c8_refresh_frame_witness :
    applyRefresh ⟨some "old", sampleCfg⟩ tokenOkResp = .ok ⟨some "fresh", sampleCfg⟩ ∧
    (⟨some "fresh", sampleCfg⟩ : CredState).cfg = (⟨some "old", sampleCfg⟩ : CredState).cfg :=
  ⟨by rfl,
    (c8_refresh_frame ⟨some "old", sampleCfg⟩ tokenOkResp ⟨some "fresh", sampleCfg⟩
      (by rfl)).1⟩

/-- C4: with no access credential configured (falsy token), every
invocation of a registered tool returns the error-flagged AuthError
response and issues no network request at all. -/
theorem c4_no_token_no_network (cfg : Config) (tok : Token) (today : String)
    (call : ToolCall) (oracle : Oracle)
    (hk : call.isKnown = true)
    (htok : tokenTruthy tok = false) :
    (handleToolCall cfg tok today call oracle).1 =
      ⟨"Error: " ++ SageError.authError.message, true⟩ ∧
    (handleToolCall cfg tok today call oracle).2.resourceRequests = [] ∧
    (handleToolCall cfg tok today call oracle).2.tokenRequests = [] := by
  obtain ⟨spec, hs⟩ := buildRequest_isSome today call hk
  have hg : sageRequest cfg tok spec.endpoint spec.method spec.body oracle =
      { outcome := .error .authError, finalToken := tok,
        resourceRequests := [], tokenRequests := [] } := by
    simp [sageRequest, htok]
  rw [handleToolCall_error cfg tok today call oracle spec .authError hs (by rw [hg])]
  rw [hg]
  exact ⟨rfl, rfl, rfl⟩

/-- Witness for C4: empty access token, concrete tool invocation. -/
theorem c4_no_token_no_network_witness :
    tokenTruthy (some "") = false ∧
    ((handleToolCall sampleCfg (some "") "2026-10-11" .listBankAccounts
        oracleAlways401).1 =
      ⟨"Error: " ++ SageError.authError.message, true⟩ ∧
    (handleToolCall sampleCfg (some "") "2026-10-11" .listBankAccounts
        oracleAlways401).2.resourceRequests = [] ∧
    (handleToolCall sampleCfg (some "") "2026-10-11" .listBankAccounts
        oracleAlways401).2.tokenRequests = []) :=
  ⟨by decide,
    c4_no_token_no_network sampleCfg (some "") "2026-10-11" .listBankAccounts
      oracleAlways401 (by decide) (by decide)⟩

/-- C9: an invocation whose name is not registered returns the error-flagged
response naming the unknown tool and issues no network request. -/
theorem c9_unknown_tool_no_network (cfg : Config) (tok : Token) (today : String)
    (oracle : Oracle) (n : String)
    (hn : n ∉ registeredToolNames) :
    handleToolCall cfg tok today (.unknown n) oracle =
      (⟨"Error: " ++ "Unknown tool: " ++ n, true⟩, ⟨[], []⟩) := by
  simp only [handleToolCall, buildRequest, ToolCall.name, SageError.message]
  rfl

/-- Witness for C9 at a concrete unregistered name. -/
theorem c9_unknown_tool_no_network_witness :
    "sage_delete_everything" ∉ registeredToolNames ∧
    handleToolCall sampleCfg (some "tok") "2026-10-11"
        (.unknown "sage_delete_everything") oracleAlways401 =
      (⟨"Error: " ++ "Unknown tool: " ++ "sage_delete_everything", true⟩, ⟨[], []⟩) :=
  ⟨by decide,
    c9_unknown_tool_no_network sampleCfg (some "tok") "2026-10-11" oracleAlways401
      "sage_delete_everything" (by decide)⟩

/-- The C6 scenario's argument bag: contact, one line item, no date. -/
def c6Args : CreateSalesInvoiceArgs :=
  { contact_id := "C1",
    line_items := [{ description := "Widget", quantity := 2, unit_price := 9.99 }] }

/-- C6: with no date argument, the serialized create-invoice body carries
the current date (the value of the server clock's YYYY-MM-DD rendering,
passed here as `today`) and a single line entry with exactly the given
description, quantity and unit price — no tax or ledger keys. -/
theorem c6_create_sales_invoice_scenario (today : String) :
    (createSalesInvoiceBody today c6Args).toJson? =
      some (.obj [("sales_invoice", .obj [
        ("contact_id", .str "C1"),
        ("date", .str today),
        ("invoice_lines", .arr [.obj [
          ("description", .str "Widget"),
          ("quantity", .num 2),
          ("unit_price", .num 9.99)]])])]) := by
  rfl

/-- C10: a present-but-falsy optional argument of a list tool yields the
same query as an absent one — for every list tool and optional field —
except sage_list_products' `active`, where a present `false` is still sent
as the pair active=false. -/
theorem c10_falsy_list_args_omitted :
    (∀ a : ListContactsArgs,
      listContactsQuery { a with contact_type := some "" } =
      listContactsQuery { a with contact_type := none }) ∧
    (∀ a : ListContactsArgs,
      listContactsQuery { a with search := some "" } =
      listContactsQuery { a with search := none }) ∧
    (∀ a : ListContactsArgs,
      listContactsQuery { a with page := some 0 } =
      listContactsQuery { a with page := none }) ∧
    (∀ a : ListContactsArgs,
      listContactsQuery { a with items_per_page := some 0 } =
      listContactsQuery { a with items_per_page := none }) ∧
    (∀ a : ListSalesInvoicesArgs,
      listSalesInvoicesQuery { a with status := some "" } =
      listSalesInvoicesQuery { a with status := none }) ∧
    (∀ a : ListSalesInvoicesArgs,
      listSalesInvoicesQuery { a with contact_id := some "" } =
      listSalesInvoicesQuery { a with contact_id := none }) ∧
    (∀ a : ListSalesInvoicesArgs,
      listSalesInvoicesQuery { a with from_date := some "" } =
      listSalesInvoicesQuery { a with from_date := none }) ∧
    (∀ a : ListSalesInvoicesArgs,
      listSalesInvoicesQuery { a with to_date := some "" } =
      listSalesInvoicesQuery { a with to_date := none }) ∧
    (∀ a : ListSalesInvoicesArgs,
      listSalesInvoicesQuery { a with page := some 0 } =
      listSalesInvoicesQuery { a with page := none }) ∧
    (∀ a : ListSalesInvoicesArgs,
      listSalesInvoicesQuery { a with items_per_page := some 0 } =
      listSalesInvoicesQuery { a with items_per_page := none }) ∧
    (∀ a : ListPurchaseInvoicesArgs,
      listPurchaseInvoicesQuery { a with status := some "" } =
      listPurchaseInvoicesQuery { a with status := none }) ∧
    (∀ a : ListPurchaseInvoicesArgs,
      listPurchaseInvoicesQuery { a with contact_id := some "" } =
      listPurchaseInvoicesQuery { a with contact_id := none }) ∧
    (∀ a : ListPurchaseInvoicesArgs,
      listPurchaseInvoicesQuery { a with from_date := some "" } =
      listPurchaseInvoicesQuery { a with from_date := none }) ∧
    (∀ a : ListPurchaseInvoicesArgs,
      listPurchaseInvoicesQuery { a with to_date := some "" } =
      listPurchaseInvoicesQuery { a with to_date := none }) ∧
    (∀ a : ListPurchaseInvoicesArgs,
      listPurchaseInvoicesQuery { a with page := some 0 } =
      listPurchaseInvoicesQuery { a with page := none }) ∧
    (∀ a : ListProductsArgs,
      listProductsQuery { a with search := some "" } =
      listProductsQuery { a with search := none }) ∧
    (∀ a : ListProductsArgs,
      listProductsQuery { a with page := some 0 } =
      listProductsQuery { a with page := none }) ∧
    (∀ a : ListPaymentsArgs,
      listPaymentsQuery { a with contact_id := some "" } =
      listPaymentsQuery { a with contact_id := none }) ∧
    (∀ a : ListPaymentsArgs,
      listPaymentsQuery { a with from_date := some "" } =
      listPaymentsQuery { a with from_date := none }) ∧
    (∀ a : ListPaymentsArgs,
      listPaymentsQuery { a with to_date := some "" } =
      listPaymentsQuery { a with to_date := none }) ∧
    (∀ a : ListPaymentsArgs,
      listPaymentsQuery { a with page := some 0 } =
      listPaymentsQuery { a with page := none }) ∧
    (∀ a : ListLedgerAccountsArgs,
      listLedgerAccountsQuery { a with ledger_account_type_id := some "" } =
      listLedgerAccountsQuery { a with ledger_account_type_id := none }) ∧
    (∀ a : ListLedgerAccountsArgs,
      listLedgerAccountsQuery { a with visible_in := some "" } =
      listLedgerAccountsQuery { a with visible_in := none }) ∧
    (∀ a : ListProductsArgs,
      ("active", "false") ∈ listProductsQuery { a with active := some false }) := by
  refine ⟨?_, ?_, ?_, ?_, ?_, ?_, ?_, ?_, ?_, ?_, ?_, ?_, ?_, ?_, ?_, ?_, ?_, ?_,
    ?_, ?_, ?_, ?_, ?_, ?_⟩ <;> intro a <;>
    simp [listContactsQuery, listSalesInvoicesQuery, listPurchaseInvoicesQuery,
      listProductsQuery, listPaymentsQuery, listLedgerAccountsQuery,
      strTruthy, numTruthy, jsBoolToString]

/-- The parameter names appearing in a query pair list. -/
def queryKeys (q : List (String × String)) : List String :=
  q.map Prod.fst

/-- All object keys of the serialized (stringified) form of a JS body. -/
def bodyKeys (v : JsValue) : List String :=
  (v.toJson?.getD .null).allKeys

/-- Two-level field access on the serialized form of a JS body. -/
def bodyField (v : JsValue) (k1 k2 : String) : Option Json :=
  (((v.toJson?.getD .null).lookup k1).getD .null).lookup k2

theorem queryKeys_append (l1 l2 : List (String × String)) :
    queryKeys (l1 ++ l2) = queryKeys l1 ++ queryKeys l2 := by
  simp [queryKeys]

theorem mem_queryKeys_if (key k v : String) (c : Bool) :
    (key ∈ queryKeys (if c then [(k, v)] else [])) ↔ (c = true ∧ key = k) := by
  cases c <;> simp [queryKeys]

theorem mem_queryKeys_ite (key k v : String) (c : Prop) [Decidable c] :
    (key ∈ queryKeys (if c then [(k, v)] else [])) ↔ (c ∧ key = k) := by
  by_cases h : c <;> simp [h, queryKeys]

theorem keysJs_str (s : String) :
    ((JsValue.str s).toJson?.getD Json.null).allKeys = [] := by
  simp [JsValue.toJson?, Json.allKeys]

theorem mem_keys_nil (key : String) :
    key ∈ Json.fieldsAllKeys (JsValue.fieldsToJson []) ↔ False := by
  simp [JsValue.fieldsToJson, Json.fieldsAllKeys]

theorem mem_keys_cons_optStr (key k : String) (v : Option String)
    (fs : List (String × JsValue)) :
    key ∈ Json.fieldsAllKeys (JsValue.fieldsToJson ((k, optStr v) :: fs)) ↔
      (v.isSome ∧ key = k) ∨ key ∈ Json.fieldsAllKeys (JsValue.fieldsToJson fs) := by
  cases v <;>
    simp [optStr, JsValue.toJson?, JsValue.fieldsToJson, Json.fieldsAllKeys, Json.allKeys]

theorem mem_keys_cons_optNum (key k : String) (v : Option Rat)
    (fs : List (String × JsValue)) :
    key ∈ Json.fieldsAllKeys (JsValue.fieldsToJson ((k, optNum v) :: fs)) ↔
      (v.isSome ∧ key = k) ∨ key ∈ Json.fieldsAllKeys (JsValue.fieldsToJson fs) := by
  cases v <;>
    simp [optNum, JsValue.toJson?, JsValue.fieldsToJson, Json.fieldsAllKeys, Json.allKeys]

theorem mem_keys_cons_str (key k s : String) (fs : List (String × JsValue)) :
    key ∈ Json.fieldsAllKeys (JsValue.fieldsToJson ((k, .str s) :: fs)) ↔
      key = k ∨ key ∈ Json.fieldsAllKeys (JsValue.fieldsToJson fs) := by
  simp [JsValue.toJson?, JsValue.fieldsToJson, Json.fieldsAllKeys, Json.allKeys]

theorem mem_keys_cons_num (key k : String) (q : Rat) (fs : List (String × JsValue)) :
    key ∈ Json.fieldsAllKeys (JsValue.fieldsToJson ((k, .num q) :: fs)) ↔
      key = k ∨ key ∈ Json.fieldsAllKeys (JsValue.fieldsToJson fs) := by
  simp [JsValue.toJson?, JsValue.fieldsToJson, Json.fieldsAllKeys, Json.allKeys]

theorem mem_keys_cons_undef (key k : String) (fs : List (String × JsValue)) :
    key ∈ Json.fieldsAllKeys (JsValue.fieldsToJson ((k, .undef) :: fs)) ↔
      key ∈ Json.fieldsAllKeys (JsValue.fieldsToJson fs) := by
  simp [JsValue.toJson?, JsValue.fieldsToJson]

theorem mem_keys_cons_arr (key k : String) (xs : List JsValue)
    (fs : List (String × JsValue)) :
    key ∈ Json.fieldsAllKeys (JsValue.fieldsToJson ((k, .arr xs) :: fs)) ↔
      key = k ∨ key ∈ Json.listAllKeys (JsValue.listToJson xs) ∨
        key ∈ Json.fieldsAllKeys (JsValue.fieldsToJson fs) := by
  simp [JsValue.toJson?, JsValue.fieldsToJson, Json.fieldsAllKeys, Json.allKeys]

theorem mem_keys_cons_obj (key k : String) (inner fs : List (String × JsValue)) :
    key ∈ Json.fieldsAllKeys (JsValue.fieldsToJson ((k, .obj inner) :: fs)) ↔
      key = k ∨ key ∈ Json.fieldsAllKeys (JsValue.fieldsToJson inner) ∨
        key ∈ Json.fieldsAllKeys (JsValue.fieldsToJson fs) := by
  simp [JsValue.toJson?, JsValue.fieldsToJson, Json.fieldsAllKeys, Json.allKeys]

theorem mem_keysJs_obj (key : String) (fs : List (String × JsValue)) :
    key ∈ ((JsValue.obj fs).toJson?.getD Json.null).allKeys ↔
      key ∈ Json.fieldsAllKeys (JsValue.fieldsToJson fs) := by
  simp [JsValue.toJson?, Json.allKeys]

theorem mem_listKeys_nil (key : String) :
    key ∈ Json.listAllKeys (JsValue.listToJson []) ↔ False := by
  simp [JsValue.listToJson, Json.listAllKeys]

theorem mem_listKeys_cons (key : String) (x : JsValue) (xs : List JsValue) :
    key ∈ Json.listAllKeys (JsValue.listToJson (x :: xs)) ↔
      key ∈ (x.toJson?.getD .null).allKeys ∨
        key ∈ Json.listAllKeys (JsValue.listToJson xs) := by
  simp [JsValue.listToJson, Json.listAllKeys]

theorem mem_listKeys_map_str (key : String) (l : List String) :
    key ∈ Json.listAllKeys (JsValue.listToJson (l.map JsValue.str)) ↔ False := by
  induction l with
  | nil => simp [mem_listKeys_nil]
  | cons hd tl ih =>
      simp [mem_listKeys_cons, ih, JsValue.toJson?, Json.allKeys]

theorem mem_listKeys_map {α : Type} (key : String) (f : α → JsValue) (l : List α) :
    key ∈ Json.listAllKeys (JsValue.listToJson (l.map f)) ↔
      ∃ x ∈ l, key ∈ ((f x).toJson?.getD .null).allKeys := by
  induction l with
  | nil => simp [mem_listKeys_nil]
  | cons hd tl ih => simp [mem_listKeys_cons, ih]

theorem mem_keys_cons_salesPrices (key k : String) (c : Bool) (q : Rat)
    (fs : List (String × JsValue)) :
    key ∈ Json.fieldsAllKeys (JsValue.fieldsToJson
        ((k, if c then JsValue.arr [.obj [("price", .num q)]] else .undef) :: fs)) ↔
      (c = true ∧ (key = k ∨ key = "price")) ∨
        key ∈ Json.fieldsAllKeys (JsValue.fieldsToJson fs) := by
  cases c <;>
    simp [mem_keys_cons_arr, mem_keys_cons_undef, mem_listKeys_cons, mem_listKeys_nil,
      mem_keysJs_obj, mem_keys_cons_num, mem_keys_nil, or_assoc]

theorem mem_bodyKeys_obj (key : String) (fs : List (String × JsValue)) :
    key ∈ bodyKeys (.obj fs) ↔
      key ∈ Json.fieldsAllKeys (JsValue.fieldsToJson fs) := by
  simp [bodyKeys, JsValue.toJson?, Json.allKeys]

/-- When absent, contact_type_ids is still sent — as an empty array. -/
theorem createContact_typeIds_default (a : CreateContactArgs) :
    bodyField (createContactBody { a with contact_type_ids := none })
      "contact" "contact_type_ids" = some (.arr []) := by
  simp [createContactBody, bodyField, JsValue.toJson?, JsValue.fieldsToJson,
    Json.lookup, JsValue.listToJson, optStr, List.lookup, beq_iff_eq]

/-- When absent, the sales-invoice date is still sent — as today. -/
theorem createSalesInvoice_date_default (today : String) (a : CreateSalesInvoiceArgs) :
    bodyField (createSalesInvoiceBody today { a with date := none })
      "sales_invoice" "date" = some (.str today) := by
  simp [createSalesInvoiceBody, bodyField, JsValue.toJson?, JsValue.fieldsToJson,
    Json.lookup, jsOrElse, strTruthy, List.lookup, beq_iff_eq]

/-- When absent, the purchase-invoice date is still sent — as today. -/
theorem createPurchaseInvoice_date_default (today : String) (a : CreateSalesInvoiceArgs) :
    bodyField (createPurchaseInvoiceBody today { a with date := none })
      "purchase_invoice" "date" = some (.str today) := by
  simp [createPurchaseInvoiceBody, bodyField, JsValue.toJson?, JsValue.fieldsToJson,
    Json.lookup, jsOrElse, strTruthy, List.lookup, beq_iff_eq]

/-- C5 counterexample to the claim as stated: with contact_type_ids absent
from the bag, the serialized sage_create_contact body still carries the key
contact_type_ids, as an empty array (and an empty main_address object). -/
theorem c5_counterexample :
    (createContactBody { name := "Acme" }).toJson? =
      some (.obj [("contact", .obj [
        ("name", .str "Acme"),
        ("contact_type_ids", .arr []),
        ("main_address", .obj [])])]) ∧
    "contact_type_ids" ∈ bodyKeys (createContactBody { name := "Acme" }) :=
  ⟨rfl, by decide⟩

/-- C5 amended: for every tool and argument bag, an optional field absent
from the bag is absent from the constructed query pairs and from the
serialized request body — except sage_create_contact's contact_type_ids
(sent as an empty array) and the create-invoice date (sent as today). -/
theorem c5_optional_absent_omitted :
    (∀ a : ListContactsArgs,
      "contact_type_id" ∉ queryKeys (listContactsQuery { a with contact_type := none })) ∧
    (∀ a : ListContactsArgs,
      "search" ∉ queryKeys (listContactsQuery { a with search := none })) ∧
    (∀ a : ListContactsArgs,
      "page" ∉ queryKeys (listContactsQuery { a with page := none })) ∧
    (∀ a : ListContactsArgs,
      "items_per_page" ∉ queryKeys (listContactsQuery { a with items_per_page := none })) ∧
    (∀ a : ListSalesInvoicesArgs,
      "status_id" ∉ queryKeys (listSalesInvoicesQuery { a with status := none })) ∧
    (∀ a : ListSalesInvoicesArgs,
      "contact_id" ∉ queryKeys (listSalesInvoicesQuery { a with contact_id := none })) ∧
    (∀ a : ListSalesInvoicesArgs,
      "from_date" ∉ queryKeys (listSalesInvoicesQuery { a with from_date := none })) ∧
    (∀ a : ListSalesInvoicesArgs,
      "to_date" ∉ queryKeys (listSalesInvoicesQuery { a with to_date := none })) ∧
    (∀ a : ListSalesInvoicesArgs,
      "page" ∉ queryKeys (listSalesInvoicesQuery { a with page := none })) ∧
    (∀ a : ListSalesInvoicesArgs,
      "items_per_page" ∉ queryKeys (listSalesInvoicesQuery { a with items_per_page := none })) ∧
    (∀ a : ListPurchaseInvoicesArgs,
      "status_id" ∉ queryKeys (listPurchaseInvoicesQuery { a with status := none })) ∧
    (∀ a : ListPurchaseInvoicesArgs,
      "contact_id" ∉ queryKeys (listPurchaseInvoicesQuery { a with contact_id := none })) ∧
    (∀ a : ListPurchaseInvoicesArgs,
      "from_date" ∉ queryKeys (listPurchaseInvoicesQuery { a with from_date := none })) ∧
    (∀ a : ListPurchaseInvoicesArgs,
      "to_date" ∉ queryKeys (listPurchaseInvoicesQuery { a with to_date := none })) ∧
    (∀ a : ListPurchaseInvoicesArgs,
      "page" ∉ queryKeys (listPurchaseInvoicesQuery { a with page := none })) ∧
    (∀ a : ListProductsArgs,
      "search" ∉ queryKeys (listProductsQuery { a with search := none })) ∧
    (∀ a : ListProductsArgs,
      "active" ∉ queryKeys (listProductsQuery { a with active := none })) ∧
    (∀ a : ListProductsArgs,
      "page" ∉ queryKeys (listProductsQuery { a with page := none })) ∧
    (∀ a : ListPaymentsArgs,
      "contact_id" ∉ queryKeys (listPaymentsQuery { a with contact_id := none })) ∧
    (∀ a : ListPaymentsArgs,
      "from_date" ∉ queryKeys (listPaymentsQuery { a with from_date := none })) ∧
    (∀ a : ListPaymentsArgs,
      "to_date" ∉ queryKeys (listPaymentsQuery { a with to_date := none })) ∧
    (∀ a : ListPaymentsArgs,
      "page" ∉ queryKeys (listPaymentsQuery { a with page := none })) ∧
    (∀ a : ListLedgerAccountsArgs,
      "ledger_account_type_id" ∉
        queryKeys (listLedgerAccountsQuery { a with ledger_account_type_id := none })) ∧
    (∀ a : ListLedgerAccountsArgs,
      "visible_in" ∉ queryKeys (listLedgerAccountsQuery { a with visible_in := none })) ∧
    (∀ a : CreateContactArgs,
      "reference" ∉ bodyKeys (createContactBody { a with reference := none })) ∧
    (∀ a : CreateContactArgs,
      "email" ∉ bodyKeys (createContactBody { a with email := none })) ∧
    (∀ a : CreateContactArgs,
      "telephone" ∉ bodyKeys (createContactBody { a with telephone := none })) ∧
    (∀ a : CreateContactArgs,
      "address_line_1" ∉ bodyKeys (createContactBody { a with address_line_1 := none })) ∧
    (∀ a : CreateContactArgs,
      "city" ∉ bodyKeys (createContactBody { a with city := none })) ∧
    (∀ a : CreateContactArgs,
      "postal_code" ∉ bodyKeys (createContactBody { a with postal_code := none })) ∧
    (∀ a : CreateContactArgs,
      "country_id" ∉ bodyKeys (createContactBody { a with country_id := none })) ∧
    (∀ (today : String) (a : CreateSalesInvoiceArgs),
      "due_date" ∉ bodyKeys (createSalesInvoiceBody today { a with due_date := none })) ∧
    (∀ (today : String) (a : CreateSalesInvoiceArgs),
      "reference" ∉ bodyKeys (createSalesInvoiceBody today { a with reference := none })) ∧
    (∀ (today : String) (a : CreateSalesInvoiceArgs),
      "notes" ∉ bodyKeys (createSalesInvoiceBody today { a with notes := none })) ∧
    (∀ (today : String) (a : CreateSalesInvoiceArgs),
      "tax_rate_id" ∉ bodyKeys (createSalesInvoiceBody today
        { a with line_items := a.line_items.map fun it => { it with tax_rate_id := none } })) ∧
    (∀ (today : String) (a : CreateSalesInvoiceArgs),
      "ledger_account_id" ∉ bodyKeys (createSalesInvoiceBody today
        { a with line_items := a.line_items.map fun it =>
          { it with ledger_account_id := none } })) ∧
    (∀ a : CreateProductArgs,
      "item_code" ∉ bodyKeys (createProductBody { a with item_code := none })) ∧
    (∀ a : CreateProductArgs,
      "sales_ledger_account_id" ∉
        bodyKeys (createProductBody { a with sales_ledger_account_id := none })) ∧
    (∀ a : CreateProductArgs,
      "purchase_ledger_account_id" ∉
        bodyKeys (createProductBody { a with purchase_ledger_account_id := none })) ∧
    (∀ a : CreateProductArgs,
      "sales_tax_rate_id" ∉
        bodyKeys (createProductBody { a with sales_tax_rate_id := none })) ∧
    (∀ a : CreateProductArgs,
      "purchase_tax_rate_id" ∉
        bodyKeys (createProductBody { a with purchase_tax_rate_id := none })) ∧
    (∀ a : CreateProductArgs,
      "sales_prices" ∉ bodyKeys (createProductBody { a with sales_price := none })) ∧
    (∀ a : CreateProductArgs,
      "purchase_price" ∉ bodyKeys (createProductBody { a with purchase_price := none })) ∧
    (∀ a : CreateOtherPaymentArgs,
      "contact_id" ∉ bodyKeys (createOtherPaymentBody { a with contact_id := none })) ∧
    (∀ a : CreateOtherPaymentArgs,
      "reference" ∉ bodyKeys (createOtherPaymentBody { a with reference := none })) ∧
    (∀ a : CreateOtherPaymentArgs,
      "net_amount" ∉ bodyKeys (createOtherPaymentBody { a with net_amount := none })) ∧
    (∀ a : CreateOtherPaymentArgs,
      "contact_id" ∉ bodyKeys (createOtherReceiptBody { a with contact_id := none })) ∧
    (∀ a : CreateOtherPaymentArgs,
      "reference" ∉ bodyKeys (createOtherReceiptBody { a with reference := none })) ∧
    (∀ a : CreateOtherPaymentArgs,
      "net_amount" ∉ bodyKeys (createOtherReceiptBody { a with net_amount := none })) ∧
    (∀ (today : String) (a : CreateSalesInvoiceArgs),
      "due_date" ∉ bodyKeys (createPurchaseInvoiceBody today { a with due_date := none })) ∧
    (∀ (today : String) (a : CreateSalesInvoiceArgs),
      "reference" ∉ bodyKeys (createPurchaseInvoiceBody today { a with reference := none })) ∧
    (∀ (today : String) (a : CreateSalesInvoiceArgs),
      "notes" ∉ bodyKeys (createPurchaseInvoiceBody today { a with notes := none })) ∧
    (∀ (today : String) (a : CreateSalesInvoiceArgs),
      "tax_rate_id" ∉ bodyKeys (createPurchaseInvoiceBody today
        { a with line_items := a.line_items.map fun it => { it with tax_rate_id := none } })) ∧
    (∀ (today : String) (a : CreateSalesInvoiceArgs),
      "ledger_account_id" ∉ bodyKeys (createPurchaseInvoiceBody today
        { a with line_items := a.line_items.map fun it =>
          { it with ledger_account_id := none } })) ∧
    (∀ a : CreatePurchaseInvoicePaymentArgs,
      "reference" ∉
        bodyKeys (createPurchaseInvoicePaymentBody { a with reference := none })) ∧
    (∀ a : CreateContactArgs,
      bodyField (createContactBody { a with contact_type_ids := none })
        "contact" "contact_type_ids" = some (.arr [])) ∧
    (∀ (today : String) (a : CreateSalesInvoiceArgs),
      bodyField (createSalesInvoiceBody today { a with date := none })
        "sales_invoice" "date" = some (.str today)) ∧
    (∀ (today : String) (a : CreateSalesInvoiceArgs),
      bodyField (createPurchaseInvoiceBody today { a with date := none })
        "purchase_invoice" "date" = some (.str today)) := by
  refine ⟨?_, ?_, ?_, ?_, ?_, ?_, ?_, ?_, ?_, ?_, ?_, ?_, ?_, ?_, ?_, ?_, ?_, ?_,
    ?_, ?_, ?_, ?_, ?_, ?_, ?_, ?_, ?_, ?_, ?_, ?_, ?_, ?_, ?_, ?_, ?_, ?_, ?_, ?_,
    ?_, ?_, ?_, ?_, ?_, ?_, ?_, ?_, ?_, ?_, ?_, ?_, ?_, ?_, ?_, ?_, ?_,
    createContact_typeIds_default, createSalesInvoice_date_default,
    createPurchaseInvoice_date_default⟩
  all_goals intros
  all_goals
    simp [listContactsQuery, listSalesInvoicesQuery, listPurchaseInvoicesQuery,
      listProductsQuery, listPaymentsQuery, listLedgerAccountsQuery,
      createContactBody, createSalesInvoiceBody, createProductBody,
      createOtherPaymentBody, createOtherReceiptBody, createPurchaseInvoiceBody,
      createPurchaseInvoicePaymentBody, lineItemJs, strTruthy, numTruthy,
      queryKeys_append, mem_queryKeys_if, mem_queryKeys_ite, mem_bodyKeys_obj,
      mem_keys_nil, mem_keys_cons_optStr, mem_keys_cons_optNum, mem_keys_cons_str,
      mem_keys_cons_num, mem_keys_cons_undef, mem_keys_cons_arr, mem_keys_cons_obj,
      mem_keys_cons_salesPrices, mem_keysJs_obj, mem_listKeys_nil, mem_listKeys_cons,
      mem_listKeys_map, mem_listKeys_map_str, keysJs_str]

end SageMcp
